import Mathlib

/-!
Verification of the Fly CLI Python agent (`docs/ai-integration/scripts/fly_agent.py`).

The script is a bridge between a caller and the external `fly` executable: it
builds an argument vector for one of a fixed set of operations, runs the
external process, and decodes the captured stdout/stderr/exit status into
either a parsed JSON payload or a raised error.

The development below is a shallow embedding of that script:

* `JValue` / `json_loads` model Python's `json.loads` (values, objects with
  last-binding-wins duplicate keys, the `NaN`/`Infinity` extensions Python
  accepts, rejection of trailing data and of empty input);
* `create_project_args`, `add_screen_args`, ... model the argument-list
  construction of the corresponding `FlyCLIAgent` methods;
* `build_command` models `cmd = [self.fly_command] + args + ["--output", "json"]`;
* `run_command` models `FlyCLIAgent._run_command`, with the subprocess
  abstracted as a function `exec : List String → SpawnResult` supplied by the
  environment, and the Python exceptions that can escape the method captured
  by `AgentError`;
* `verify_installation` models `FlyCLIAgent._verify_installation`;
* `BridgeError` / `toBridgeError` give the specification-level error taxonomy
  (ToolNotInstalled / ToolNotInvocable / ToolReportedError /
  InvalidSuccessPayload) and the mapping of the script's concrete failure
  modes onto it; `toBridgeError e = none` means the failure escapes the
  bridge unclassified.
-/

/-- A decoded JSON value, as produced by Python's `json.loads`.  Numbers are
kept as their source lexeme (Python would convert to `int`/`float`; no claim
in this development depends on numeric value arithmetic). -/
inductive JValue where
  | null
  | bool (b : Bool)
  | num (lexeme : String)
  | str (s : String)
  | arr (elems : List JValue)
  | obj (fields : List (String × JValue))

/-- JSON whitespace characters, exactly the set Python's decoder skips. -/
def is_json_ws (c : Char) : Bool :=
  c == ' ' || c == '\t' || c == '\n' || c == '\r'

/-- Drop leading JSON whitespace. -/
def skip_ws (cs : List Char) : List Char := cs.dropWhile is_json_ws

/-- Value of a hexadecimal digit, for `\uXXXX` escapes. -/
def hex_val (c : Char) : Option Nat :=
  if '0' ≤ c ∧ c ≤ '9' then some (c.toNat - '0'.toNat)
  else if 'a' ≤ c ∧ c ≤ 'f' then some (c.toNat - 'a'.toNat + 10)
  else if 'A' ≤ c ∧ c ≤ 'F' then some (c.toNat - 'A'.toNat + 10)
  else none

/-- Translation of a single-character JSON string escape. -/
def escape_char : Char → Option Char
  | '"' => some '"'
  | '\\' => some '\\'
  | '/' => some '/'
  | 'b' => some (Char.ofNat 8)
  | 'f' => some (Char.ofNat 12)
  | 'n' => some '\n'
  | 'r' => some '\r'
  | 't' => some '\t'
  | _ => none

/-- Parse the body of a JSON string (the opening quote already consumed),
returning the decoded characters and the remaining input.  Unescaped control
characters are rejected, as in Python's strict mode.  Surrogate-pair
recombination is not modelled (each `\uXXXX` becomes one scalar). -/
def parse_string_body : Nat → List Char → Option (List Char × List Char)
  | 0, _ => none
  | _ + 1, [] => none
  | fuel + 1, c :: rest =>
    if c = '"' then some ([], rest)
    else if c = '\\' then
      match rest with
      | [] => none
      | e :: rest2 =>
        if e = 'u' then
          match rest2 with
          | h1 :: h2 :: h3 :: h4 :: rest3 =>
            match hex_val h1, hex_val h2, hex_val h3, hex_val h4 with
            | some a, some b, some c2, some d =>
              (parse_string_body fuel rest3).map
                (fun p => (Char.ofNat (((a * 16 + b) * 16 + c2) * 16 + d) :: p.1, p.2))
            | _, _, _, _ => none
          | _ => none
        else
          match escape_char e with
          | some ec => (parse_string_body fuel rest2).map (fun p => (ec :: p.1, p.2))
          | none => none
    else if c.toNat < 32 then none
    else (parse_string_body fuel rest).map (fun p => (c :: p.1, p.2))

/-- Lex the integer part of a JSON number: `0`, or a nonzero digit followed
by digits. -/
def lex_int_part : List Char → Option (List Char × List Char)
  | '0' :: rest => some (['0'], rest)
  | c :: rest =>
    if c.isDigit then some ((c :: rest).span Char.isDigit)
    else none
  | [] => none

/-- Lex an optional fraction part (`.` followed by at least one digit). -/
def lex_frac_part : List Char → List Char × List Char
  | '.' :: c :: rest =>
    if c.isDigit then
      let p := (c :: rest).span Char.isDigit
      ('.' :: p.1, p.2)
    else ([], '.' :: c :: rest)
  | cs => ([], cs)

/-- Lex an optional exponent part (`e`/`E`, optional sign, at least one digit). -/
def lex_exp_part : List Char → List Char × List Char
  | e :: rest =>
    if e = 'e' ∨ e = 'E' then
      match rest with
      | s :: rest2 =>
        if s = '+' ∨ s = '-' then
          match rest2 with
          | d :: _ =>
            if d.isDigit then
              let p := rest2.span Char.isDigit
              (e :: s :: p.1, p.2)
            else ([], e :: rest)
          | [] => ([], e :: rest)
        else if s.isDigit then
          let p := rest.span Char.isDigit
          (e :: p.1, p.2)
        else ([], e :: rest)
      | [] => ([], [e])
    else ([], e :: rest)
  | [] => ([], [])

/-- Lex a JSON number, keeping its lexeme. -/
def parse_json_number (cs : List Char) : Option (JValue × List Char) :=
  let p0 : List Char × List Char :=
    match cs with
    | '-' :: r => (['-'], r)
    | _ => ([], cs)
  match lex_int_part p0.2 with
  | none => none
  | some (ip, cs2) =>
    let pf := lex_frac_part cs2
    let pe := lex_exp_part pf.2
    some (.num (String.mk (p0.1 ++ ip ++ pf.1 ++ pe.1)), pe.2)

mutual

/-- Parse one JSON value (leading whitespace allowed), returning it and the
remaining input.  Mirrors what Python's `json.loads` accepts, including the
non-standard `NaN` / `Infinity` / `-Infinity` literals. -/
def parse_value : Nat → List Char → Option (JValue × List Char)
  | 0, _ => none
  | fuel + 1, cs =>
    match skip_ws cs with
    | 'n' :: 'u' :: 'l' :: 'l' :: rest => some (.null, rest)
    | 't' :: 'r' :: 'u' :: 'e' :: rest => some (.bool true, rest)
    | 'f' :: 'a' :: 'l' :: 's' :: 'e' :: rest => some (.bool false, rest)
    | 'N' :: 'a' :: 'N' :: rest => some (.num "NaN", rest)
    | 'I' :: 'n' :: 'f' :: 'i' :: 'n' :: 'i' :: 't' :: 'y' :: rest =>
      some (.num "Infinity", rest)
    | '-' :: 'I' :: 'n' :: 'f' :: 'i' :: 'n' :: 'i' :: 't' :: 'y' :: rest =>
      some (.num "-Infinity", rest)
    | '"' :: rest =>
      match parse_string_body (rest.length + 1) rest with
      | some (s, rest2) => some (.str (String.mk s), rest2)
      | none => none
    | '[' :: rest =>
      match parse_elems fuel rest with
      | some (vs, rest2) => some (.arr vs, rest2)
      | none => none
    | '\x7b' :: rest =>
      match parse_members fuel rest with
      | some (fs, rest2) => some (.obj fs, rest2)
      | none => none
    | cs2 => parse_json_number cs2

/-- Parse the elements of an array, the opening bracket already consumed. -/
def parse_elems : Nat → List Char → Option (List JValue × List Char)
  | 0, _ => none
  | fuel + 1, cs =>
    match skip_ws cs with
    | ']' :: rest => some ([], rest)
    | _ =>
      match parse_value fuel cs with
      | some (v, rest) =>
        match parse_elems_rest fuel rest with
        | some (vs, rest2) => some (v :: vs, rest2)
        | none => none
      | none => none

/-- Parse `, value`* `]` after the first element of an array.  A comma must
be followed by a value, so trailing commas are rejected. -/
def parse_elems_rest : Nat → List Char → Option (List JValue × List Char)
  | 0, _ => none
  | fuel + 1, cs =>
    match skip_ws cs with
    | ']' :: rest => some ([], rest)
    | ',' :: rest =>
      match parse_value fuel rest with
      | some (v, rest2) =>
        match parse_elems_rest fuel rest2 with
        | some (vs, rest3) => some (v :: vs, rest3)
        | none => none
      | none => none
    | _ => none

/-- Parse the members of an object, the opening brace already consumed. -/
def parse_members : Nat → List Char → Option (List (String × JValue) × List Char)
  | 0, _ => none
  | fuel + 1, cs =>
    match skip_ws cs with
    | '\x7d' :: rest => some ([], rest)
    | '"' :: rest =>
      match parse_string_body (rest.length + 1) rest with
      | some (kcs, rest2) =>
        match skip_ws rest2 with
        | ':' :: rest3 =>
          match parse_value fuel rest3 with
          | some (v, rest4) =>
            match parse_members_rest fuel rest4 with
            | some (fs, rest5) => some ((String.mk kcs, v) :: fs, rest5)
            | none => none
          | none => none
        | _ => none
      | none => none
    | _ => none

/-- Parse `, "key": value`* `closing brace` after the first member. -/
def parse_members_rest : Nat → List Char → Option (List (String × JValue) × List Char)
  | 0, _ => none
  | fuel + 1, cs =>
    match skip_ws cs with
    | '\x7d' :: rest => some ([], rest)
    | ',' :: rest =>
      match skip_ws rest with
      | '"' :: rest2 =>
        match parse_string_body (rest2.length + 1) rest2 with
        | some (kcs, rest3) =>
          match skip_ws rest3 with
          | ':' :: rest4 =>
            match parse_value fuel rest4 with
            | some (v, rest5) =>
              match parse_members_rest fuel rest5 with
              | some (fs, rest6) => some ((String.mk kcs, v) :: fs, rest6)
              | none => none
            | none => none
          | _ => none
        | none => none
      | _ => none
    | _ => none

end

/-- Model of Python's `json.loads`: `some v` when the whole input is one JSON
document (possibly surrounded by whitespace), `none` when the decoder would
raise `json.JSONDecodeError` (empty input, malformed input, trailing data). -/
def json_loads (s : String) : Option JValue :=
  let cs := s.toList
  match parse_value (2 * cs.length + 4) cs with
  | some (v, rest) => if skip_ws rest = [] then some v else none
  | none => none

example : json_loads "" = none := rfl
example : json_loads "null" = some JValue.null := rfl
example : json_loads " \x7b\"a\": [1, true], \"a\": \"x\"\x7d " =
    some (JValue.obj [("a", JValue.arr [JValue.num "1", JValue.bool true]),
                      ("a", JValue.str "x")]) := rfl
example : json_loads "\x7b\"error\": \x7b\"message\": \"boom\"\x7d\x7d" =
    some (JValue.obj [("error", JValue.obj [("message", JValue.str "boom")])]) := rfl
example : json_loads "[1,]" = none := rfl
example : json_loads "not json" = none := rfl
example : json_loads "-12.5e+3" = some (JValue.num "-12.5e+3") := rfl
example : json_loads "\"a\\nb\"" = some (JValue.str "a\nb") := rfl
example : json_loads "3 4" = none := rfl

/-- Last-binding-wins lookup in a decoded JSON object, matching the behaviour
of Python's `dict` built by `json.loads` (later duplicate keys override
earlier ones) and of `dict.get`. -/
def dictGet (fields : List (String × JValue)) (k : String) : Option JValue :=
  fields.foldl (fun acc p => if p.1 = k then some p.2 else acc) none

mutual

/-- Python `repr` of a decoded JSON value, as far as the embedding needs it
(string escaping inside `repr` is not modelled). -/
def pyRepr : JValue → String
  | .null => "None"
  | .bool true => "True"
  | .bool false => "False"
  | .num lexeme => lexeme
  | .str s => "'" ++ s ++ "'"
  | .arr xs => "[" ++ pyReprElems xs ++ "]"
  | .obj fs => "\x7b" ++ pyReprFields fs ++ "\x7d"

/-- Comma-separated `repr` of array elements. -/
def pyReprElems : List JValue → String
  | [] => ""
  | [v] => pyRepr v
  | v :: rest => pyRepr v ++ ", " ++ pyReprElems rest

/-- Comma-separated `repr` of object members. -/
def pyReprFields : List (String × JValue) → String
  | [] => ""
  | [(k, v)] => "'" ++ k ++ "': " ++ pyRepr v
  | (k, v) :: rest => "'" ++ k ++ "': " ++ pyRepr v ++ ", " ++ pyReprFields rest

end

/-- Python `str` of a decoded JSON value, used when the script interpolates
the extracted error message into an f-string: a `str` payload is used
verbatim, anything else goes through `repr`-like conversion. -/
def pyStr : JValue → String
  | .str s => s
  | v => pyRepr v

/-- The raw result of a completed subprocess: exit status and captured
stdout/stderr text (`subprocess.run(..., capture_output=True, text=True)`). -/
structure ExecutionOutcome where
  returncode : Int
  stdout : String
  stderr : String

/-- What `subprocess.run` can do for a given command line: complete (with any
exit status), or fail to spawn the executable at all, in which case Python
raises `FileNotFoundError`. -/
inductive SpawnResult where
  | completed (outcome : ExecutionOutcome)
  | fileNotFound

/-- The failure modes that can escape `FlyCLIAgent`'s methods, one
constructor per `raise` site or uncaught exception:

* `flyCliNotFound`: `_verify_installation`'s
  `RuntimeError("Fly CLI not found. Please install it with: dart pub global activate fly_cli")`;
* `flyCliError message`: `_run_command`'s
  `RuntimeError(f"Fly CLI error: {message}")` with `message` already
  converted by `str`;
* `flyCliCommandFailed stderr`: `_run_command`'s
  `RuntimeError(f"Fly CLI command failed: {e.stderr}")`;
* `invalidJsonResponse stdout`: `_run_command`'s
  `RuntimeError(f"Invalid JSON response from Fly CLI: {e}")`, recorded here
  with the offending stdout rather than the decoder's own message text;
* `fileNotFoundError`: the `FileNotFoundError` from `subprocess.run`, which
  `_run_command` has no handler for, so it propagates to the caller as is;
* `attributeError`: the `AttributeError` raised by `.get` when the decoded
  error body is not a `dict` (or its `error` member is not a `dict`); no
  handler catches it, so it propagates to the caller as is. -/
inductive AgentError where
  | flyCliNotFound
  | flyCliError (message : String)
  | flyCliCommandFailed (stderr : String)
  | invalidJsonResponse (stdout : String)
  | fileNotFoundError
  | attributeError

/-- The error taxonomy of the specification (section 7). -/
inductive BridgeError where
  | toolNotInstalled (message : String)
  | toolNotInvocable
  | toolReportedError (message : String)
  | invalidSuccessPayload

/-- The remediation message raised by `_verify_installation` (two adjacent
f-string literals in the source, concatenated by Python). -/
def installation_error_message : String :=
  "Fly CLI not found. Please install it with: dart pub global activate fly_cli"

/-- Mapping of the script's concrete failure modes onto the specification's
taxonomy, following the spec's words in sections 4.2 and 7: the
`Fly CLI error:` and `Fly CLI command failed:` RuntimeErrors are the two
sources of `ToolReportedError`, the `Invalid JSON response` RuntimeError is
`InvalidSuccessPayload`, the probe's RuntimeError is `ToolNotInstalled`, and
the propagated `FileNotFoundError` is the spawn-failure class the spec calls
`ToolNotInvocable`.  `none` means the exception leaves the bridge without a
classification in the taxonomy. -/
def toBridgeError : AgentError → Option BridgeError
  | .flyCliNotFound => some (.toolNotInstalled installation_error_message)
  | .flyCliError m => some (.toolReportedError m)
  | .flyCliCommandFailed s => some (.toolReportedError s)
  | .invalidJsonResponse _ => some .invalidSuccessPayload
  | .fileNotFoundError => some .toolNotInvocable
  | .attributeError => none

/-- Python `str` of a `subprocess.CalledProcessError` for a command that
exited with a non-zero status: used when the decoded error body has no
`error`/`message` entry (`.get('message', str(e))`).  The signal wording
Python uses for negative return codes is not distinguished. -/
def str_called_process_error (cmd : List String) (returncode : Int) : String :=
  "Command '[" ++ String.intercalate ", " (cmd.map (fun s => "'" ++ s ++ "'"))
    ++ "]' returned non-zero exit status " ++ toString returncode ++ "."

/-- Model of `cmd = [self.fly_command] + args + ["--output", "json"]` in
`FlyCLIAgent._run_command`. -/
def build_command (fly_command : String) (args : List String) : List String :=
  [fly_command] ++ args ++ ["--output", "json"]

/-- Model of `FlyCLIAgent._run_command`.  The subprocess is abstracted as
`exec`, giving the spawn result for the exact command line that is run.

The decode logic mirrors the source line by line, with one deliberate
exception: the success-path line of the source reads
`return json.loads(result.stdout as String)`, which is not valid Python
(`as String` is a syntax error); this embedding models the evident intent
`json.loads(result.stdout)`, and the discrepancy is recorded against the
corresponding claim.

On a non-zero exit the handler re-parses stdout; a parsed body that is not a
JSON object, or whose `error` member is not an object, makes `.get` raise
`AttributeError`, which no `except` clause covers. -/
def run_command (fly_command : String) (args : List String)
    (exec : List String → SpawnResult) : Except AgentError JValue :=
  let cmd := build_command fly_command args
  match exec cmd with
  | .fileNotFound => .error .fileNotFoundError
  | .completed o =>
    if o.returncode = 0 then
      match json_loads o.stdout with
      | some v => .ok v
      | none => .error (.invalidJsonResponse o.stdout)
    else
      match json_loads o.stdout with
      | none => .error (.flyCliCommandFailed o.stderr)
      | some (.obj fields) =>
        match dictGet fields "error" with
        | some (.obj efields) =>
          match dictGet efields "message" with
          | some m => .error (.flyCliError (pyStr m))
          | none => .error (.flyCliError (str_called_process_error cmd o.returncode))
        | some _ => .error .attributeError
        | none => .error (.flyCliError (str_called_process_error cmd o.returncode))
      | some _ => .error .attributeError

/-- Model of `FlyCLIAgent._verify_installation`: run `[fly_command,
"--version"]`; a spawn failure (`FileNotFoundError`) or a non-zero exit
(`CalledProcessError`, because of `check=True`) both raise the
`RuntimeError` with the remediation message; a zero exit returns normally
(the confirmation print is diagnostic only and not modelled). -/
def verify_installation (fly_command : String)
    (exec : List String → SpawnResult) : Except AgentError Unit :=
  match exec [fly_command, "--version"] with
  | .fileNotFound => .error .flyCliNotFound
  | .completed o =>
    if o.returncode = 0 then .ok () else .error .flyCliNotFound

/-- Model of `FlyCLIAgent.create_project`'s argument construction.
`platforms = none` is Python's `None` (replaced by the `["ios", "android"]`
default); `--platforms` is appended only when the list is truthy, i.e.
non-empty, with the values joined by commas; `--template` and
`--organization` are always emitted; `--plan` only when `plan` is true. -/
def create_project_args (name template organization : String)
    (platforms : Option (List String)) (plan : Bool) : List String :=
  let ps := match platforms with
    | none => ["ios", "android"]
    | some l => l
  let args := ["create", name, "--template", template, "--organization", organization]
  let args := if ps.isEmpty then args else args ++ ["--platforms", String.intercalate "," ps]
  if plan then args ++ ["--plan"] else args

/-- Model of `FlyCLIAgent.add_screen`'s argument construction: `--feature`
and `--type` always emitted, `--with-viewmodel=true` / `--with-tests=true`
appended exactly when the corresponding flag is true (so they are emitted at
their `True` defaults). -/
def add_screen_args (name feature screen_type : String)
    (with_viewmodel with_tests : Bool) : List String :=
  let args := ["add", "screen", name, "--feature", feature, "--type", screen_type]
  let args := if with_viewmodel then args ++ ["--with-viewmodel=true"] else args
  if with_tests then args ++ ["--with-tests=true"] else args

/-- Model of `FlyCLIAgent.add_service`'s argument construction; `base_url`
is emitted only when truthy (not `None` and not the empty string). -/
def add_service_args (name feature service_type : String)
    (base_url : Option String) (with_tests with_mocks : Bool) : List String :=
  let args := ["add", "service", name, "--feature", feature, "--type", service_type]
  let args := match base_url with
    | some u => if u = "" then args else args ++ ["--base-url", u]
    | none => args
  let args := if with_tests then args ++ ["--with-tests=true"] else args
  if with_mocks then args ++ ["--with-mocks=true"] else args

/-- Model of `FlyCLIAgent.export_context`'s argument construction. -/
def export_context_args (output_file : String)
    (include_dependencies include_structure include_conventions : Bool) : List String :=
  let args := ["context", "export", "--output-file", output_file]
  let args := if include_dependencies then args ++ ["--include-dependencies"] else args
  let args := if include_structure then args ++ ["--include-structure"] else args
  if include_conventions then args ++ ["--include-conventions"] else args

/-- Model of `FlyCLIAgent.export_schema`'s argument construction; `command`
is emitted only when truthy. -/
def export_schema_args (command : Option String) : List String :=
  match command with
  | some c => if c = "" then ["schema", "export"] else ["schema", "export", "--command", c]
  | none => ["schema", "export"]

/-- The operations the agent exposes, with the options each accepts: one
constructor per public `FlyCLIAgent` method that reaches `_run_command`. -/
inductive Operation where
  | create_project (name template organization : String)
      (platforms : Option (List String)) (plan : Bool)
  | add_screen (name feature screen_type : String) (with_viewmodel with_tests : Bool)
  | add_service (name feature service_type : String) (base_url : Option String)
      (with_tests with_mocks : Bool)
  | export_context (output_file : String)
      (include_dependencies include_structure include_conventions : Bool)
  | export_schema (command : Option String)
  | doctor
  | version

/-- The argument list each operation passes to `_run_command`. -/
def operation_args : Operation → List String
  | .create_project n t o ps pl => create_project_args n t o ps pl
  | .add_screen n f st wv wt => add_screen_args n f st wv wt
  | .add_service n f st bu wt wm => add_service_args n f st bu wt wm
  | .export_context f d s c => export_context_args f d s c
  | .export_schema c => export_schema_args c
  | .doctor => ["doctor"]
  | .version => ["version"]

/-- An operation invocation: the agent method builds its argument list and
delegates to `_run_command`. -/
def invoke (fly_command : String) (op : Operation)
    (exec : List String → SpawnResult) : Except AgentError JValue :=
  run_command fly_command (operation_args op) exec

/-- C1: on a non-zero exit, if stdout decodes to a JSON object whose `error`
member is an object with a `message` entry `m`, `_run_command` raises the
`Fly CLI error:` RuntimeError carrying `m` (the ToolReportedError class); if
stdout does not decode as JSON at all, it raises the
`Fly CLI command failed:` RuntimeError carrying the captured stderr verbatim
(also the ToolReportedError class). -/
theorem run_command_nonzero_exit_reports_tool_error
    (fly : String) (args : List String) (exec : List String → SpawnResult)
    (o : ExecutionOutcome)
    (hexec : exec (build_command fly args) = SpawnResult.completed o)
    (hcode : o.returncode ≠ 0) :
    (∀ fields efields m,
        json_loads o.stdout = some (JValue.obj fields) →
        dictGet fields "error" = some (JValue.obj efields) →
        dictGet efields "message" = some (JValue.str m) →
        run_command fly args exec = Except.error (AgentError.flyCliError m) ∧
          toBridgeError (AgentError.flyCliError m) =
            some (BridgeError.toolReportedError m)) ∧
    (json_loads o.stdout = none →
        run_command fly args exec = Except.error (AgentError.flyCliCommandFailed o.stderr) ∧
          toBridgeError (AgentError.flyCliCommandFailed o.stderr) =
            some (BridgeError.toolReportedError o.stderr)) := by
  constructor
  · intro fields efields m hparse herr hmsg
    refine ⟨?_, rfl⟩
    simp only [run_command, hexec, if_neg hcode, hparse, herr, hmsg, pyStr]
  · intro hparse
    refine ⟨?_, rfl⟩
    simp only [run_command, hexec, if_neg hcode, hparse]

/-- Witness for `run_command_nonzero_exit_reports_tool_error`: a concrete
failing run whose stdout is `\x7b"error": \x7b"message": "boom"\x7d\x7d`
surfaces `boom`, and one whose stdout is not JSON surfaces its stderr
`disk full`. -/
theorem run_command_nonzero_exit_reports_tool_error_witness :
    run_command "fly" ["doctor"]
        (fun _ => SpawnResult.completed ⟨1, "\x7b\"error\": \x7b\"message\": \"boom\"\x7d\x7d", ""⟩) =
      Except.error (AgentError.flyCliError "boom") ∧
    run_command "fly" ["doctor"]
        (fun _ => SpawnResult.completed ⟨1, "oops", "disk full"⟩) =
      Except.error (AgentError.flyCliCommandFailed "disk full") := by
  constructor
  · exact ((run_command_nonzero_exit_reports_tool_error "fly" ["doctor"] _
        ⟨1, "\x7b\"error\": \x7b\"message\": \"boom\"\x7d\x7d", ""⟩ rfl (by decide)).1
      [("error", JValue.obj [("message", JValue.str "boom")])]
      [("message", JValue.str "boom")] "boom" rfl rfl rfl).1
  · exact ((run_command_nonzero_exit_reports_tool_error "fly" ["doctor"] _
        ⟨1, "oops", "disk full"⟩ rfl (by decide)).2 rfl).1

/-- C2: with the success-path decode taken as the evident intent
`json.loads(result.stdout)` (the source line itself reads
`json.loads(result.stdout as String)`, which is a Python syntax error), a
zero exit whose stdout decodes as JSON returns the decoded payload and
never an error. -/
theorem run_command_zero_exit_valid_json_intended
    (fly : String) (args : List String) (exec : List String → SpawnResult)
    (o : ExecutionOutcome) (v : JValue)
    (hexec : exec (build_command fly args) = SpawnResult.completed o)
    (hcode : o.returncode = 0)
    (hparse : json_loads o.stdout = some v) :
    run_command fly args exec = Except.ok v ∧
      ∀ e, run_command fly args exec ≠ Except.error e := by
  have h : run_command fly args exec = Except.ok v := by
    simp only [run_command, hexec, if_pos hcode, hparse]
  exact ⟨h, fun e hne => by rw [h] at hne; cases hne⟩

/-- Witness for `run_command_zero_exit_valid_json_intended`: a zero-exit run
printing `\x7b"status": "ok"\x7d` yields the decoded object. -/
theorem run_command_zero_exit_valid_json_intended_witness :
    run_command "fly" ["version"]
        (fun _ => SpawnResult.completed ⟨0, "\x7b\"status\": \"ok\"\x7d", ""⟩) =
      Except.ok (JValue.obj [("status", JValue.str "ok")]) :=
  (run_command_zero_exit_valid_json_intended "fly" ["version"] _
    ⟨0, "\x7b\"status\": \"ok\"\x7d", ""⟩
    (JValue.obj [("status", JValue.str "ok")]) rfl rfl rfl).1

/-- C3: a zero exit whose stdout is empty or otherwise not decodable as JSON
raises the `Invalid JSON response` RuntimeError (the InvalidSuccessPayload
class) and never yields a success payload — in particular an empty stdout is
not an empty success object. -/
theorem run_command_zero_exit_invalid_json_invalid_payload
    (fly : String) (args : List String) (exec : List String → SpawnResult)
    (o : ExecutionOutcome)
    (hexec : exec (build_command fly args) = SpawnResult.completed o)
    (hcode : o.returncode = 0)
    (hparse : json_loads o.stdout = none) :
    run_command fly args exec = Except.error (AgentError.invalidJsonResponse o.stdout) ∧
      toBridgeError (AgentError.invalidJsonResponse o.stdout) =
        some BridgeError.invalidSuccessPayload ∧
      ∀ v, run_command fly args exec ≠ Except.ok v := by
  have h : run_command fly args exec = Except.error (AgentError.invalidJsonResponse o.stdout) := by
    simp only [run_command, hexec, if_pos hcode, hparse]
  exact ⟨h, rfl, fun v hne => by rw [h] at hne; cases hne⟩

/-- Witness for `run_command_zero_exit_invalid_json_invalid_payload`: a
zero-exit run that prints nothing at all is classified as an invalid success
payload. -/
theorem run_command_zero_exit_invalid_json_invalid_payload_witness :
    run_command "fly" ["doctor"] (fun _ => SpawnResult.completed ⟨0, "", ""⟩) =
      Except.error (AgentError.invalidJsonResponse "") :=
  (run_command_zero_exit_invalid_json_invalid_payload "fly" ["doctor"] _
    ⟨0, "", ""⟩ rfl rfl rfl).1

/-- C4: when the executable cannot be spawned at invocation time, the
`FileNotFoundError` from `subprocess.run` propagates out of `_run_command`;
it is the spawn-failure class the specification calls ToolNotInvocable, and
it is distinguishable from every ToolReportedError outcome. -/
theorem run_command_spawn_failure_tool_not_invocable
    (fly : String) (args : List String) (exec : List String → SpawnResult)
    (hexec : exec (build_command fly args) = SpawnResult.fileNotFound) :
    run_command fly args exec = Except.error AgentError.fileNotFoundError ∧
      toBridgeError AgentError.fileNotFoundError = some BridgeError.toolNotInvocable ∧
      ∀ m, (BridgeError.toolNotInvocable : BridgeError) ≠ BridgeError.toolReportedError m := by
  refine ⟨?_, rfl, fun m h => by cases h⟩
  simp only [run_command, hexec]

/-- Witness for `run_command_spawn_failure_tool_not_invocable`: an
environment in which every spawn fails. -/
theorem run_command_spawn_failure_tool_not_invocable_witness :
    run_command "fly" ["version"] (fun _ => SpawnResult.fileNotFound) =
      Except.error AgentError.fileNotFoundError :=
  (run_command_spawn_failure_tool_not_invocable "fly" ["version"] _ rfl).1

/-- C5 (failing input): a non-zero exit whose stdout decodes to a JSON value
that is not an object — here the array `[1]` — makes the handler call `.get`
on a non-dict, raising an `AttributeError` that no `except` clause catches:
an execution outcome on which the bridge lets a raw, unclassified fault
reach the caller, contradicting the total-classification claim. -/
theorem run_command_array_error_body_escapes_unclassified :
    run_command "fly" ["doctor"]
        (fun _ => SpawnResult.completed ⟨1, "[1]", "stderr text"⟩) =
      Except.error AgentError.attributeError ∧
    toBridgeError AgentError.attributeError = none :=
  ⟨rfl, rfl⟩

/-- C6: for every operation and every option set, the full command line is
the deterministic function `build_command` of the operation's argument list,
and it always ends with the two tokens `--output json`. -/
theorem build_command_ends_with_output_json (fly : String) (op : Operation) :
    build_command fly (operation_args op) =
        fly :: (operation_args op ++ ["--output", "json"]) ∧
      ∃ front, build_command fly (operation_args op) = front ++ ["--output", "json"] := by
  refine ⟨rfl, fly :: operation_args op, ?_⟩
  simp [build_command]

/-- C7 (counterexample): with every option at its documented default —
template `riverpod`, organization `com.example`, platforms left to the
caller-absent default, plan `False`; screen type `generic`,
with-viewmodel/with-tests `True` — the flags of the defaulted options
`template`, `organization`, `type`, and `with_viewmodel` are nevertheless
present in the constructed argument vector, so the sparse-encoding claim
fails for them. -/
theorem sparse_encoding_default_flags_present :
    "--template" ∈ create_project_args "my_app" "riverpod" "com.example" none false ∧
    "--organization" ∈ create_project_args "my_app" "riverpod" "com.example" none false ∧
    "--type" ∈ add_screen_args "home" "auth" "generic" true true ∧
    "--with-viewmodel=true" ∈ add_screen_args "home" "auth" "generic" true true := by
  refine ⟨?_, ?_, ?_, ?_⟩ <;> decide

/-- C7 (amended): in `create_project` the only sparsely encoded option is
`plan` — the vector with `plan = False` (its default) is exactly the vector
with `plan = True` minus the trailing `--plan` token — while `--template`
and `--organization` are emitted for every option set; in `add_screen` the
boolean options are emitted exactly when true, so their `True` defaults are
always emitted. -/
theorem sparse_encoding_plan_only
    (name template organization : String) (platforms : Option (List String)) :
    create_project_args name template organization platforms true =
        create_project_args name template organization platforms false ++ ["--plan"] ∧
      "--template" ∈ create_project_args name template organization platforms false ∧
      "--organization" ∈ create_project_args name template organization platforms false ∧
      ∀ sname feature stype,
        add_screen_args sname feature stype true true =
          add_screen_args sname feature stype false false ++
            ["--with-viewmodel=true", "--with-tests=true"] := by
  refine ⟨?_, ?_, ?_, ?_⟩
  · unfold create_project_args
    cases platforms with
    | none => simp
    | some l => cases l <;> simp
  · unfold create_project_args
    cases platforms with
    | none => simp
    | some l => cases l <;> simp
  · unfold create_project_args
    cases platforms with
    | none => simp
    | some l => cases l <;> simp
  · intro sname feature stype
    simp [add_screen_args]

/-- C8 (counterexample): the argv tail the claim predicts for the example
scenario — `create my_app --organization com.example --platforms ios,android
--output json`, with the template flag omitted — is not the one the code
builds. -/
theorem create_example_argv_differs :
    build_command "fly"
        (create_project_args "my_app" "riverpod" "com.example" (some ["ios", "android"]) false) ≠
      ["fly", "create", "my_app", "--organization", "com.example",
        "--platforms", "ios,android", "--output", "json"] := by
  decide

/-- C8 (amended): the example scenario — name `my_app`, template `riverpod`,
organization `com.example`, platforms `[ios, android]`, plan off — builds
exactly the tail `create my_app --template riverpod --organization
com.example --platforms ios,android --output json`: the template flag is
emitted despite being the default, the platform list is comma-joined into
the single token `ios,android`, and `--output json` comes last. -/
theorem create_example_argv_exact :
    build_command "fly"
        (create_project_args "my_app" "riverpod" "com.example" (some ["ios", "android"]) false) =
      ["fly", "create", "my_app", "--template", "riverpod", "--organization", "com.example",
        "--platforms", "ios,android", "--output", "json"] := by
  decide

/-- C9: the availability probe raises the RuntimeError carrying the
remediation install command both when the executable cannot be found
(`FileNotFoundError`) and when its `--version` run exits non-zero
(`CalledProcessError`); on a zero exit it returns normally; the failure is
the ToolNotInstalled class and its message ends with the install command
`dart pub global activate fly_cli`. -/
theorem verify_installation_classification (fly : String) (exec : List String → SpawnResult) :
    (exec [fly, "--version"] = SpawnResult.fileNotFound →
        verify_installation fly exec = Except.error AgentError.flyCliNotFound) ∧
    (∀ o, exec [fly, "--version"] = SpawnResult.completed o → o.returncode ≠ 0 →
        verify_installation fly exec = Except.error AgentError.flyCliNotFound) ∧
    (∀ o, exec [fly, "--version"] = SpawnResult.completed o → o.returncode = 0 →
        verify_installation fly exec = Except.ok ()) ∧
    toBridgeError AgentError.flyCliNotFound =
      some (BridgeError.toolNotInstalled installation_error_message) ∧
    installation_error_message =
      "Fly CLI not found. Please install it with: " ++ "dart pub global activate fly_cli" := by
  refine ⟨?_, ?_, ?_, rfl, rfl⟩
  · intro h
    simp only [verify_installation, h]
  · intro o h hc
    simp only [verify_installation, h, if_neg hc]
  · intro o h hc
    simp only [verify_installation, h, if_pos hc]

/-- Witness for `verify_installation_classification`: a missing executable
fails the probe, a zero-exit `--version` run passes it, and a non-zero exit
fails it. -/
theorem verify_installation_classification_witness :
    verify_installation "fly" (fun _ => SpawnResult.fileNotFound) =
      Except.error AgentError.flyCliNotFound ∧
    verify_installation "fly" (fun _ => SpawnResult.completed ⟨0, "fly_cli 1.0.0", ""⟩) =
      Except.ok () ∧
    verify_installation "fly" (fun _ => SpawnResult.completed ⟨127, "", "not found"⟩) =
      Except.error AgentError.flyCliNotFound := by
  refine ⟨?_, ?_, ?_⟩
  · exact (verify_installation_classification "fly" (fun _ => SpawnResult.fileNotFound)).1 rfl
  · exact (verify_installation_classification "fly"
      (fun _ => SpawnResult.completed ⟨0, "fly_cli 1.0.0", ""⟩)).2.2.1
      ⟨0, "fly_cli 1.0.0", ""⟩ rfl rfl
  · exact (verify_installation_classification "fly"
      (fun _ => SpawnResult.completed ⟨127, "", "not found"⟩)).2.1
      ⟨127, "", "not found"⟩ rfl (by decide)

/-- C10: an explicitly empty platform list is falsy in Python, so the
`--platforms` pair is omitted entirely, while an absent (`None`) platform
argument is replaced by the `["ios", "android"]` default and emitted as the
comma-joined token `ios,android`. -/
theorem create_project_empty_platforms_omitted
    (name template organization : String) (plan : Bool) :
    create_project_args name template organization (some []) plan =
        ["create", name, "--template", template, "--organization", organization] ++
          (if plan then ["--plan"] else []) ∧
      create_project_args name template organization none plan =
        ["create", name, "--template", template, "--organization", organization,
          "--platforms", "ios,android"] ++ (if plan then ["--plan"] else []) := by
  cases plan <;> exact ⟨rfl, rfl⟩
